import Mathlib

/-!
Shallow embedding of the order admission and pricing core of the boundless
broker (crates/broker/src/order_picker.rs) and of the order-stream client
(crates/boundless-market/src/order_stream_client.rs).

Machine integers (u64, U256) are modelled as `Nat`; every concrete instance
considered below stays far below the word bounds, and the source arithmetic
(`saturating_sub`, `saturating_mul`, U256 products of 64-bit values) never
overflows there.  The asynchronous environment (chain monitor, database,
prover, storage) is modelled as a pure snapshot `Env`: each field corresponds
to one external read the code performs during a single evaluation; the
post-preflight re-reads of the gas balance and gas price get their own
snapshot fields (`account_balance2`, `gas_price2`).
-/

namespace Boundless

/-- `FulfillmentType` tag attached to every order (crate type, used by
`order_picker.rs`). -/
inductive FulfillmentType where
  | LockAndFulfill
  | FulfillAfterLockExpire
deriving DecidableEq, Repr

/-- `Offer` fields consumed by the pricing core.  Prices and stake are raw
token amounts (wei-scale `Nat`), times are epoch seconds / second durations. -/
structure Offer where
  minPrice : Nat
  maxPrice : Nat
  biddingStart : Nat
  rampUpPeriod : Nat
  lockTimeout : Nat
  timeout : Nat
  lockStake : Nat
deriving DecidableEq, Repr

/-- `Requirements` fields consumed by the pricing core: only the selector is
inspected (as an opaque tag). -/
structure Requirements where
  selector : Nat
deriving DecidableEq, Repr

/-- The part of `ProofRequest` read by `order_picker.rs`. -/
structure ProofRequest where
  id : Nat
  offer : Offer
  requirements : Requirements
deriving DecidableEq, Repr

/-- `OrderRequest`: a proof request plus the broker's fulfillment intent and
the fields `price_order_and_update_state` fills in before emission. -/
structure OrderRequest where
  request : ProofRequest
  fulfillment_type : FulfillmentType
  target_timestamp : Option Nat := none
  expire_timestamp : Option Nat := none
  total_cycles : Option Nat := none
  image_id : Option String := none
  input_id : Option String := none
deriving DecidableEq, Repr

/-- Modelled from the spec: `request.client_address()` is derived from
`request.id`, whose lower 96 bits carry the per-client index and flag bits
while the upper bits carry the client address (the `RequestId` layout lives
outside `src/`). -/
def client_address (r : ProofRequest) : Nat :=
  r.id / 2 ^ 96

/-- `OrderPricingOutcome` (order_picker.rs). -/
inductive OrderPricingOutcome where
  | Lock (total_cycles target_timestamp_secs expiry_secs : Nat)
  | ProveAfterLockExpire (total_cycles lock_expire_timestamp_secs expiry_secs : Nat)
  | Skip
deriving DecidableEq, Repr

/-- `OrderPickerErr` variants reachable from `price_order` (payloads
dropped). -/
inductive OrderPickerErr where
  | FetchInputErr
  | FetchImageErr
  | GuestPanic
  | RequestError
  | RpcErr
  | UnexpectedErr
deriving DecidableEq, Repr

/-- Outcome of one `prover.preflight` invocation, classified the way
`price_order` consumes it. -/
inductive PreflightResult where
  | success (total_cycles journal_size : Nat)
  | sessionLimitExceeded
  | guestPanic
  | otherErr
deriving DecidableEq, Repr

/-- The `[market]` configuration keys read by the code under `src/`.
`priority_requestor_addresses`, `mcycle_price_stake_token` and
`max_journal_bytes` are present in the configuration (the tests set them) but
are never read by this fork's `price_order`. -/
structure MarketConf where
  min_deadline : Nat
  allow_client_addresses : Option (List Nat) := none
  deny_requestor_addresses : Option (List Nat) := none
  priority_requestor_addresses : Option (List Nat) := none
  mcycle_price : Nat
  mcycle_price_stake_token : Nat := 1
  max_mcycle_limit : Nat
  peak_prove_khz : Option Nat := none
  max_journal_bytes : Nat
deriving Repr

/-- One-evaluation snapshot of every external capability `price_order`
touches.  Function-valued fields model the deterministic capabilities
(`estimate_gas_to_fulfill`, storage uploads, `preflight`, the db lock /
fulfill queries, the supported-selector set). -/
structure Env where
  now : Nat
  gas_price : Nat
  account_balance : Nat
  /-- gas price at the post-preflight re-read -/
  gas_price2 : Nat
  /-- signer balance at the post-preflight re-read -/
  account_balance2 : Nat
  stake_balance : Nat
  committed_orders : List OrderRequest
  is_request_locked : Nat → Bool
  is_request_fulfilled : Nat → Bool
  is_supported_selector : Nat → Bool
  estimate_gas_to_fulfill : ProofRequest → Nat
  upload_image : ProofRequest → Option String
  upload_input : ProofRequest → Option String
  preflight : String → String → Nat → PreflightResult
  stake_token_decimals : Nat
  conf : MarketConf

/-- `estimate_gas_to_fulfill_pending`: sum of the fulfill-gas estimates of all
committed orders (`db.get_committed_orders`). -/
def estimate_gas_to_fulfill_pending (env : Env) : Nat :=
  (env.committed_orders.map (fun o => env.estimate_gas_to_fulfill o.request)).sum

/-- `gas_balance_reserved`: current gas price times the pending fulfill gas. -/
def gas_balance_reserved (env : Env) : Nat :=
  env.gas_price * estimate_gas_to_fulfill_pending env

/-- `available_gas_balance`: signer balance minus the reserved gas
(`saturating_sub` is `Nat` subtraction). -/
def available_gas_balance (env : Env) : Nat :=
  env.account_balance - gas_balance_reserved env

/-- `available_gas_balance` at the post-preflight re-read: the balance and the
gas price are read again, the committed-order set is the same snapshot. -/
def available_gas_balance2 (env : Env) : Nat :=
  env.account_balance2 - env.gas_price2 * estimate_gas_to_fulfill_pending env

/-- `available_stake_balance`: the fork returns the raw stake-token balance of
the signer.  (Its own doc comment announces "balance ... minus any pending
locked stake", but no subtraction is performed.) -/
def available_stake_balance (env : Env) : Nat :=
  env.stake_balance

/-- `lock_expiration = biddingStart + lockTimeout`. -/
def lock_expiration_of (o : OrderRequest) : Nat :=
  o.request.offer.biddingStart + o.request.offer.lockTimeout

/-- `order_expiration = biddingStart + timeout`. -/
def order_expiration_of (o : OrderRequest) : Nat :=
  o.request.offer.biddingStart + o.request.offer.timeout

/-- The `expiration` component of `price_order`'s
`(expiration, lockin_stake)` pair: `order_expiration` for
`FulfillAfterLockExpire`, `lock_expiration` otherwise. -/
def effective_expiration (o : OrderRequest) : Nat :=
  if o.fulfillment_type = FulfillmentType.FulfillAfterLockExpire then
    order_expiration_of o
  else
    lock_expiration_of o

/-- The `lockin_stake` component of the same pair: zero for
`FulfillAfterLockExpire`, `offer.lockStake` otherwise. -/
def lockin_stake_of (o : OrderRequest) : Nat :=
  if o.fulfillment_type = FulfillmentType.FulfillAfterLockExpire then 0
  else o.request.offer.lockStake

/-- Allow-list clause: configured and the client is absent. -/
def denied_by_allow_list (conf : MarketConf) (addr : Nat) : Bool :=
  match conf.allow_client_addresses with
  | some allow => !(allow.contains addr)
  | none => false

/-- Deny-list clause: configured and the client is present. -/
def denied_by_deny_list (conf : MarketConf) (addr : Nat) : Bool :=
  match conf.deny_requestor_addresses with
  | some deny => deny.contains addr
  | none => false

/-- `FAST_LOCK_THRESHOLD_ETH = 0.0000000000000001` ether, i.e. 100 wei.  The
source compares `format_ether(maxPrice)` parsed into an `f64` against the
constant; away from the representability boundary of 100 wei this is exactly
the wei comparison embedded here. -/
def fast_lock_is_high_value (maxPrice : Nat) : Prop :=
  100 ≤ maxPrice

instance (maxPrice : Nat) : Decidable (fast_lock_is_high_value maxPrice) := by
  unfold fast_lock_is_high_value
  infer_instance

/-- `fast_evaluate_order` (order_picker.rs, the "NEW: ultra-fast" path).
Returns `some` outcome to short-circuit `price_order`, `none` to fall through
to the full evaluation.  `FAST_LOCK_MAX_CYCLES = 5_000_000_000`,
`FAST_LOCK_MAX_STAKE = 1000`, `FAST_LOCK_MIN_DEADLINE = 300`. -/
def fast_evaluate_order (env : Env) (order : OrderRequest) :
    Option OrderPricingOutcome :=
  if lock_expiration_of order ≤ env.now then
    none
  else if fast_lock_is_high_value order.request.offer.maxPrice ∧
      order.request.offer.lockStake < 1000 ∧
      300 ≤ lock_expiration_of order - env.now then
    if env.gas_price * 500000 ≤ available_gas_balance env ∧
        order.request.offer.lockStake ≤ available_stake_balance env then
      some (OrderPricingOutcome.Lock 5000000000 0 (lock_expiration_of order))
    else
      none
  else
    none

/-- Modelled from the spec: `utils::calculate_exec_limit_from_price` (utils.rs
is outside `src/`): "the cycles affordable at the order's maximum reward,
given the configured price-per-million-cycles (`max_price / mcycle_price`,
scaled)" — scaled by one million cycles per mcycle. -/
def calculate_exec_limit_from_price (maxPrice mcyclePrice : Nat) : Nat :=
  maxPrice * 1000000 / mcyclePrice

/-- `calculate_max_cycles_for_time` (order_picker.rs): proving rate in kHz
times 1000 times the seconds available. -/
def calculate_max_cycles_for_time (prove_khz time_seconds : Nat) : Nat :=
  prove_khz * 1000 * time_seconds

/-- The execution-limit derivation of `price_order` (lines 466-500): the
price-based limit, capped by the deadline-based limit when `peak_prove_khz`
is configured, then capped unconditionally by `max_mcycle_limit`. -/
def exec_limit_for (env : Env) (order : OrderRequest) (expiration : Nat) : Nat :=
  let fromPrice :=
    calculate_exec_limit_from_price order.request.offer.maxPrice env.conf.mcycle_price
  let afterDeadline :=
    match env.conf.peak_prove_khz with
    | some khz =>
      let deadline_cycle_limit :=
        calculate_max_cycles_for_time khz (expiration - env.now)
      if deadline_cycle_limit < fromPrice then deadline_cycle_limit else fromPrice
    | none => fromPrice
  if env.conf.max_mcycle_limit < afterDeadline then env.conf.max_mcycle_limit
  else afterDeadline

/-- The full evaluation of `price_order` (order_picker.rs lines 329-580),
run when the fast path declines: the duplicate-state guards, the expiry and
`min_deadline` guards, the allow/deny and selector filters, the stake and gas
feasibility checks, artifact staging, preflight, the gas re-check, and
emission. -/
def price_order_full (env : Env) (order : OrderRequest) :
    Except OrderPickerErr OrderPricingOutcome :=
    if order.fulfillment_type = FulfillmentType.LockAndFulfill ∧
        env.is_request_locked order.request.id then
      Except.ok OrderPricingOutcome.Skip
    else if order.fulfillment_type = FulfillmentType.FulfillAfterLockExpire ∧
        env.is_request_fulfilled order.request.id then
      Except.ok OrderPricingOutcome.Skip
    else
      if effective_expiration order ≤ env.now then
        Except.ok OrderPricingOutcome.Skip
      else if effective_expiration order - env.now ≤ env.conf.min_deadline then
        Except.ok OrderPricingOutcome.Skip
      else if denied_by_allow_list env.conf (client_address order.request) then
        Except.ok OrderPricingOutcome.Skip
      else if denied_by_deny_list env.conf (client_address order.request) then
        Except.ok OrderPricingOutcome.Skip
      else if ¬ env.is_supported_selector order.request.requirements.selector then
        Except.ok OrderPricingOutcome.Skip
      else if available_stake_balance env < lockin_stake_of order then
        Except.ok OrderPricingOutcome.Skip
      else if available_gas_balance env <
          env.gas_price * env.estimate_gas_to_fulfill order.request then
        Except.ok OrderPricingOutcome.Skip
      else
        match env.upload_image order.request with
        | none => Except.error OrderPickerErr.FetchImageErr
        | some image_id =>
          match env.upload_input order.request with
          | none => Except.error OrderPickerErr.FetchInputErr
          | some input_id =>
            match env.preflight image_id input_id
                (exec_limit_for env order (effective_expiration order)) with
            | PreflightResult.sessionLimitExceeded => Except.ok OrderPricingOutcome.Skip
            | PreflightResult.guestPanic => Except.error OrderPickerErr.GuestPanic
            | PreflightResult.otherErr => Except.error OrderPickerErr.UnexpectedErr
            | PreflightResult.success total_cycles _journal_size =>
              if available_gas_balance2 env <
                  env.gas_price2 * env.estimate_gas_to_fulfill order.request then
                Except.ok OrderPricingOutcome.Skip
              else if order.fulfillment_type = FulfillmentType.LockAndFulfill then
                Except.ok (OrderPricingOutcome.Lock total_cycles 0
                  (effective_expiration order))
              else
                Except.ok (OrderPricingOutcome.ProveAfterLockExpire total_cycles
                  (order.request.offer.biddingStart + order.request.offer.lockTimeout)
                  (order.request.offer.biddingStart + order.request.offer.timeout))

/-- `price_order` (order_picker.rs lines 317-580): the fast path runs first
and short-circuits on `some`; otherwise the full evaluation decides. -/
def price_order (env : Env) (order : OrderRequest) :
    Except OrderPickerErr OrderPricingOutcome :=
  match fast_evaluate_order env order with
  | some fast_result => Except.ok fast_result
  | none => price_order_full env order

/-- Observable effects of one `price_order_and_update_state` run: the boolean
it returns, the orders pushed into `priced_orders_tx`, and the orders recorded
through `db.insert_skipped_request`. -/
structure UpdateResult where
  returned : Bool
  sent : List OrderRequest
  skipped_db : List OrderRequest
deriving DecidableEq, Repr

/-- `price_order_and_update_state` (order_picker.rs lines 182-262).  The
`tokio::select!` racing `price_order` against the cancellation token is
modelled by `cancel_fires_first`: when the token wins the function returns
`false` with no emission and no database write. -/
def price_order_and_update_state (env : Env) (order : OrderRequest)
    (cancel_fires_first : Bool) : UpdateResult :=
  if cancel_fires_first then
    { returned := false, sent := [], skipped_db := [] }
  else
    match price_order env order with
    | Except.ok (OrderPricingOutcome.Lock total_cycles target_timestamp_secs expiry_secs) =>
      { returned := true
        sent := [{ order with
          total_cycles := some total_cycles
          target_timestamp := some target_timestamp_secs
          expire_timestamp := some expiry_secs }]
        skipped_db := [] }
    | Except.ok (OrderPricingOutcome.ProveAfterLockExpire total_cycles
        lock_expire_timestamp_secs expiry_secs) =>
      { returned := true
        sent := [{ order with
          total_cycles := some total_cycles
          target_timestamp := some lock_expire_timestamp_secs
          expire_timestamp := some expiry_secs }]
        skipped_db := [] }
    | Except.ok OrderPricingOutcome.Skip =>
      { returned := false, sent := [], skipped_db := [order] }
    | Except.error _ =>
      { returned := false, sent := [], skipped_db := [order] }

/-- Modelled from the spec: the stake reserved by emitted-but-unresolved and
downstream-committed orders, "Σ(`lockin_stake` of orders currently emitted but
not yet resolved on-chain)".  The fork computes no such quantity. -/
def stake_reserved (env : Env) : Nat :=
  (env.committed_orders.map lockin_stake_of).sum

/-- Modelled from the spec: `Offer::stake_reward_if_locked_and_not_fulfilled`
(contracts crate, outside `src/`) — the slashed-stake share awarded for
fulfilling after lock expiry; the repository's own test pins `lockStake = 4 →
reward 1` and `lockStake = 40 → reward 10`, i.e. a quarter of the stake. -/
def stake_reward_if_locked_and_not_fulfilled (o : Offer) : Nat :=
  o.lockStake / 4

/-- Modelled from the spec: the execution limit the spec prescribes for
`FulfillAfterLockExpire` orders, "`stake_reward × 10^(18 − decimals) /
mcycle_price_stake_token`", in cycles (one million cycles per mcycle; the
repository's own test pins reward 10, 6 decimals, price 1 stake token per
mcycle to a limit of 10 cycles). -/
def spec_lock_expired_exec_limit (env : Env) (o : Offer) : Nat :=
  stake_reward_if_locked_and_not_fulfilled o * 10 ^ (18 - env.stake_token_decimals)
    * 1000000 / env.conf.mcycle_price_stake_token

/-- Key of one active-pricing-task entry.  The source keys the inner map by
the `order.id()` string; modelled from the spec, the order identity is
`(request.id, request_digest, fulfillment_type)` and the id string names the
fulfillment type, so `order_id.contains("LockAndFulfill")` holds exactly of
`LockAndFulfill` identities ("FulfillAfterLockExpire" has no such
substring). -/
structure TaskKey where
  reqId : Nat
  digest : Nat
  ftype : FulfillmentType
deriving DecidableEq, Repr

/-- `order_id.contains("LockAndFulfill")` on the modelled identity. -/
def task_is_lock_and_fulfill (k : TaskKey) : Bool :=
  k.ftype = FulfillmentType.LockAndFulfill

/-- The controller's active-task table,
`BTreeMap<U256, BTreeMap<String, CancellationToken>>`, modelled as an
association list keyed by request id (the map structure guarantees distinct
keys; the embedding treats every entry whose key matches uniformly). -/
abbrev TaskMap := List (Nat × List TaskKey)

/-- `handle_lock_event` (order_picker.rs lines 640-689).  Returns the new
active-task table, the new pending-order list, and the keys whose
cancellation tokens were fired.  Only `LockAndFulfill` tasks under the locked
request are cancelled and removed; only `LockAndFulfill` pending orders for
the request are dropped; the request's entry disappears when emptied. -/
def handle_lock_event (request_id : Nat) (active_tasks : TaskMap)
    (pending_orders : List OrderRequest) :
    TaskMap × List OrderRequest × List TaskKey :=
  let cancelled :=
    match active_tasks.find? (fun e => e.1 = request_id) with
    | some e => e.2.filter task_is_lock_and_fulfill
    | none => []
  let tasks2 :=
    (active_tasks.map (fun e =>
      if e.1 = request_id then
        (e.1, e.2.filter (fun k => ¬ task_is_lock_and_fulfill k))
      else e)).filter
      (fun e => ¬ (e.1 = request_id ∧ e.2.isEmpty))
  let pending2 :=
    pending_orders.filter (fun o =>
      ¬ (o.request.id = request_id ∧
        o.fulfillment_type = FulfillmentType.LockAndFulfill))
  (tasks2, pending2, cancelled)

/-- One order as decoded from the order-stream server response
(order_stream_client.rs).  Only the digest is inspected by `fetch_order`;
`payload` stands for the rest of the `Order` value. -/
structure StreamOrder where
  request_digest : Nat
  payload : Nat
deriving DecidableEq, Repr

/-- `OrderStreamClient::fetch_order` (order_stream_client.rs lines 254-292)
after a successful HTTP response decoding to `orders`: empty → error; exactly
one → that order, unconditionally; otherwise filter by the supplied digest or
fail when none was supplied. -/
def fetch_order (orders : List StreamOrder) (request_digest : Option Nat) :
    Except String StreamOrder :=
  match orders, request_digest with
  | [], _ => Except.error "No order found"
  | [o], _ => Except.ok o
  | o1 :: o2 :: rest, some digest =>
    match (o1 :: o2 :: rest).find? (fun o => o.request_digest = digest) with
    | some o => Except.ok o
    | none => Except.error "No order found"
  | _ :: _ :: _, none =>
    Except.error "Multiple orders found, please provide a request digest"

/-! Concrete instances used to evaluate the definitions at specific inputs. -/

/-- A neutral market configuration. -/
def confBase : MarketConf :=
  { min_deadline := 60
    mcycle_price := 100000000000
    mcycle_price_stake_token := 1000000000000000000
    max_mcycle_limit := 1000000000000000000
    max_journal_bytes := 10000 }

/-- A 0.04-ether offer opening at t = 1000 with a 900 s lock window (the
shape of the repository's own `OrderParams::default()` test order). -/
def offerBase : Offer :=
  { minPrice := 20000000000000000
    maxPrice := 40000000000000000
    biddingStart := 1000
    rampUpPeriod := 1
    lockTimeout := 900
    timeout := 1200
    lockStake := 0 }

/-- Request number 7 of client address 3. -/
def requestBase : ProofRequest :=
  { id := 3 * 2 ^ 96 + 7
    offer := offerBase
    requirements := { selector := 9 } }

/-- A `LockAndFulfill` order for `requestBase`. -/
def orderBase : OrderRequest :=
  { request := requestBase
    fulfillment_type := FulfillmentType.LockAndFulfill }

/-- A quiescent environment at t = 1000: empty balances, no commitments,
every capability succeeding trivially. -/
def envBase : Env :=
  { now := 1000
    gas_price := 0
    account_balance := 0
    gas_price2 := 0
    account_balance2 := 0
    stake_balance := 0
    committed_orders := []
    is_request_locked := fun _ => false
    is_request_fulfilled := fun _ => false
    is_supported_selector := fun _ => true
    estimate_gas_to_fulfill := fun _ => 0
    upload_image := fun _ => some "img"
    upload_input := fun _ => some "inp"
    preflight := fun _ _ _ => PreflightResult.success 1000 0
    stake_token_decimals := 18
    conf := confBase }

/-- C1 instance: every selector is unsupported. -/
def envSelUnsupported : Env :=
  { envBase with is_supported_selector := fun _ => false }

/-- C2 counterexample instance: `min_deadline = 400` while the order's lock
window closes 350 s after `now` (inside the fast path's own 300 s floor). -/
def envMinDeadline400 : Env :=
  { envBase with conf := { confBase with min_deadline := 400 } }

/-- C2 counterexample order: lock window of 350 s. -/
def orderLock350 : OrderRequest :=
  { orderBase with request :=
    { requestBase with offer := { offerBase with lockTimeout := 350, timeout := 2000 } } }

/-- C2 witness order: lock window of 50 s, below the fast path's 300 s
floor. -/
def orderLock50 : OrderRequest :=
  { orderBase with request :=
    { requestBase with offer := { offerBase with lockTimeout := 50 } } }

/-- C2 witness environment: `min_deadline = 100`. -/
def envMinDeadline100 : Env :=
  { envBase with conf := { confBase with min_deadline := 100 } }

/-- C3 instance: `max_journal_bytes = 1` while every preflight reports a
4-byte journal. -/
def envSmallJournal : Env :=
  { envBase with
    conf := { confBase with max_journal_bytes := 1 }
    preflight := fun _ _ _ => PreflightResult.success 1000 4 }

/-- C3 order: a 50-wei offer, below the fast path's 100-wei value floor, so
the full evaluation (preflight included) runs. -/
def orderCheapJournal : OrderRequest :=
  { orderBase with request :=
    { requestBase with offer := { offerBase with maxPrice := 50 } } }

/-- A committed `LockAndFulfill` order holding 1000 units of stake. -/
def committedStake1000 : OrderRequest :=
  { request :=
      { id := 11 * 2 ^ 96 + 1
        offer := { offerBase with lockStake := 1000 }
        requirements := { selector := 9 } }
    fulfillment_type := FulfillmentType.LockAndFulfill }

/-- C4 instance: stake balance 2500 with 1000 already committed. -/
def envStake2500 : Env :=
  { envBase with
    stake_balance := 2500
    committed_orders := [committedStake1000] }

/-- C4 order: 50-wei offer (fast path off) demanding 2000 units of stake. -/
def orderStake2000 : OrderRequest :=
  { orderBase with request :=
    { requestBase with offer := { offerBase with maxPrice := 50, lockStake := 2000 } } }

/-- C5 instance: 6-decimal stake token priced at one token (10^18 wei-scale)
per mcycle. -/
def envStakeToken6 : Env :=
  { envBase with stake_token_decimals := 6 }

/-- C5 order: `FulfillAfterLockExpire` with 40 units of stake; its lock
window closes 10 s after `now`, so the fast path stands down. -/
def orderLockExpired40 : OrderRequest :=
  { request :=
      { requestBase with offer :=
        { offerBase with lockTimeout := 10, timeout := 2000, lockStake := 40 } }
    fulfillment_type := FulfillmentType.FulfillAfterLockExpire }

/-- C6 instance: client 5 is a priority requestor and the global cycle
ceiling is 1000. -/
def envPriority5 : Env :=
  { envBase with
    stake_balance := 2500
    conf := { confBase with
      priority_requestor_addresses := some [5]
      max_mcycle_limit := 1000
      mcycle_price := 1 } }

/-- C6 order: a 1-ether offer from client 5 with 2000 units of stake (the
stake keeps the fast path off). -/
def orderPriorityClient : OrderRequest :=
  { orderBase with request :=
    { requestBase with
      id := 5 * 2 ^ 96
      offer := { offerBase with maxPrice := 1000000000000000000, lockStake := 2000 } } }

/-- C7/C9 task keys: a `LockAndFulfill` and a `FulfillAfterLockExpire`
identity for request 1, and a `LockAndFulfill` identity for request 2. -/
def keyLaf1 : TaskKey := { reqId := 1, digest := 21, ftype := FulfillmentType.LockAndFulfill }

def keyPale1 : TaskKey :=
  { reqId := 1, digest := 22, ftype := FulfillmentType.FulfillAfterLockExpire }

def keyLaf2 : TaskKey := { reqId := 2, digest := 23, ftype := FulfillmentType.LockAndFulfill }

/-- C7 active-task table: both identities of request 1, one of request 2. -/
def tasksDemo : TaskMap := [(1, [keyLaf1, keyPale1]), (2, [keyLaf2])]

/-- C7 pending orders: both fulfillment types for request 1, plus a
`LockAndFulfill` order of request 2. -/
def pendingDemo : List OrderRequest :=
  [ { orderBase with request := { requestBase with id := 1 } }
  , { orderBase with
      request := { requestBase with id := 1 },
      fulfillment_type := FulfillmentType.FulfillAfterLockExpire }
  , { orderBase with request := { requestBase with id := 2 } } ]

/-- C10 stream orders with distinct digests. -/
def streamOrderA : StreamOrder := { request_digest := 100, payload := 1 }

def streamOrderB : StreamOrder := { request_digest := 200, payload := 2 }

/-- The order emitted for `orderBase` in `envBase` (fast-locked with the
conservative cycle estimate). -/
def sentFastLock : OrderRequest :=
  { orderBase with
    total_cycles := some 5000000000
    target_timestamp := some 0
    expire_timestamp := some 1900 }

/-! Claim theorems. -/

/-- C1: the claim states that an order whose `requirements.selector` is
unsupported is always priced `Skip`.  The code violates it: the fast-lock
shortcut never consults the selector, so `price_order` emits `Lock` for an
order with an unsupported selector whenever the shortcut fires — here on the
very order shape of the repository's own `skip_unsupported_selector` test
(0.04-ether offer, zero stake, 900 s lock window). -/
theorem C1_unsupported_selector_fast_locked :
    envSelUnsupported.is_supported_selector orderBase.request.requirements.selector = false ∧
    price_order envSelUnsupported orderBase =
      Except.ok (OrderPricingOutcome.Lock 5000000000 0 1900) :=
  ⟨rfl, rfl⟩

/-- C2 counterexample: with `min_deadline = 400`, an order whose effective
expiration lies 350 s away — inside the `min_deadline` horizon, so the claim
demands `Skip` — is emitted as `Lock` by the fast-lock shortcut, which only
enforces its own 300 s floor. -/
theorem C2_min_deadline_counterexample :
    effective_expiration orderLock350 ≤
      envMinDeadline400.now + envMinDeadline400.conf.min_deadline ∧
    price_order envMinDeadline400 orderLock350 =
      Except.ok (OrderPricingOutcome.Lock 5000000000 0 1350) :=
  ⟨by decide, rfl⟩

/-- C2 (amended): whenever the fast-lock shortcut does not emit, an order
whose effective expiration satisfies
`effective_expiration ≤ now + min_deadline` — the boundary case included — is
priced `Skip`. -/
theorem C2_min_deadline_skip (env : Env) (order : OrderRequest)
    (hfast : fast_evaluate_order env order = none)
    (hexp : effective_expiration order ≤ env.now + env.conf.min_deadline) :
    price_order env order = Except.ok OrderPricingOutcome.Skip := by
  have hp : price_order env order = price_order_full env order := by
    simp [price_order, hfast]
  rw [hp]
  unfold price_order_full
  by_cases h1 : order.fulfillment_type = FulfillmentType.LockAndFulfill ∧
      env.is_request_locked order.request.id = true
  · rw [if_pos h1]
  · rw [if_neg h1]
    by_cases h2 : order.fulfillment_type = FulfillmentType.FulfillAfterLockExpire ∧
        env.is_request_fulfilled order.request.id = true
    · rw [if_pos h2]
    · rw [if_neg h2]
      by_cases h3 : effective_expiration order ≤ env.now
      · rw [if_pos h3]
      · rw [if_neg h3,
          if_pos (show effective_expiration order - env.now ≤ env.conf.min_deadline by
            omega)]

/-- C2 witness: with `min_deadline = 100` and a lock window of 50 s (below
the fast path's floor, so the shortcut stands down) the boundary order is
skipped. -/
theorem C2_min_deadline_skip_witness :
    fast_evaluate_order envMinDeadline100 orderLock50 = none ∧
    effective_expiration orderLock50 ≤
      envMinDeadline100.now + envMinDeadline100.conf.min_deadline ∧
    price_order envMinDeadline100 orderLock50 = Except.ok OrderPricingOutcome.Skip :=
  ⟨rfl, by decide,
    C2_min_deadline_skip envMinDeadline100 orderLock50 rfl (by decide)⟩

/-- C3: the claim states that a successful preflight whose `journal_size`
exceeds `max_journal_bytes` leads to `Skip`.  The code violates it: this
fork's `price_order` never inspects the journal size, so with
`max_journal_bytes = 1` and a preflight reporting a 4-byte journal (the
scenario of the repository's own `skips_journal_exceeding_limit` test) the
order is still emitted as `Lock`. -/
theorem C3_journal_limit_ignored :
    envSmallJournal.conf.max_journal_bytes = 1 ∧
    envSmallJournal.preflight "img" "inp"
      (exec_limit_for envSmallJournal orderCheapJournal
        (effective_expiration orderCheapJournal)) = PreflightResult.success 1000 4 ∧
    envSmallJournal.conf.max_journal_bytes < 4 ∧
    price_order envSmallJournal orderCheapJournal =
      Except.ok (OrderPricingOutcome.Lock 1000 0 1900) :=
  ⟨rfl, rfl, by decide, rfl⟩

/-- C4: the claim states that the stake-availability check compares
`lockin_stake` against the balance minus the reserved stake.  The code
violates it: `available_stake_balance` returns the raw balance (despite its
own doc comment announcing the subtraction), so an order demanding 2000 stake
units is emitted as `Lock` although only 2500 − 1000 = 1500 units are
unreserved. -/
theorem C4_stake_reserved_not_subtracted :
    envStake2500.stake_balance = 2500 ∧
    stake_reserved envStake2500 = 1000 ∧
    lockin_stake_of orderStake2000 = 2000 ∧
    envStake2500.stake_balance - stake_reserved envStake2500 <
      lockin_stake_of orderStake2000 ∧
    price_order envStake2500 orderStake2000 =
      Except.ok (OrderPricingOutcome.Lock 1000 0 1900) :=
  ⟨rfl, rfl, rfl, by decide, rfl⟩

/-- C5: the claim states that for `FulfillAfterLockExpire` orders the
preflight limit derives from the slashable-stake reward.  The code violates
it: this fork derives the limit from `offer.max_price / mcycle_price` for
every fulfillment type, so the 40-stake-unit order of the repository's own
precision-loss test gets a 4·10^11-cycle limit instead of the 10-cycle
stake-derived limit. -/
theorem C5_lock_expired_limit_from_max_price :
    orderLockExpired40.fulfillment_type = FulfillmentType.FulfillAfterLockExpire ∧
    exec_limit_for envStakeToken6 orderLockExpired40
        (effective_expiration orderLockExpired40) =
      calculate_exec_limit_from_price orderLockExpired40.request.offer.maxPrice
        envStakeToken6.conf.mcycle_price ∧
    exec_limit_for envStakeToken6 orderLockExpired40
        (effective_expiration orderLockExpired40) = 400000000000 ∧
    spec_lock_expired_exec_limit envStakeToken6 orderLockExpired40.request.offer = 10 ∧
    price_order envStakeToken6 orderLockExpired40 =
      Except.ok (OrderPricingOutcome.ProveAfterLockExpire 1000 1010 3000) :=
  ⟨rfl, rfl, rfl, rfl, rfl⟩

/-- C6: the claim states that clients in `priority_requestor_addresses` are
exempt from the global `max_mcycle_limit` ceiling.  The code violates it:
this fork never reads `priority_requestor_addresses` and applies the ceiling
unconditionally, so client 5 — listed as a priority requestor — still has its
price-derived 10^24-cycle limit clamped to the global 1000-cycle ceiling. -/
theorem C6_priority_requestor_not_bypassed :
    envPriority5.conf.priority_requestor_addresses = some [5] ∧
    client_address orderPriorityClient.request = 5 ∧
    envPriority5.conf.max_mcycle_limit = 1000 ∧
    calculate_exec_limit_from_price orderPriorityClient.request.offer.maxPrice
      envPriority5.conf.mcycle_price = 10 ^ 24 ∧
    exec_limit_for envPriority5 orderPriorityClient
      (effective_expiration orderPriorityClient) = 1000 :=
  ⟨rfl, by decide, rfl, by decide, rfl⟩

/-- C7: after `handle_lock_event` for a locked request, (i) no active task of
that request with a `LockAndFulfill` identity remains, (ii) every
`FulfillAfterLockExpire` task of the request survives under its key, (iii)
entries of other requests are untouched, (iv) no pending `LockAndFulfill`
order of the request remains, (v) every other pending order survives, and
(vi) only `LockAndFulfill` tasks had their cancellation token fired. -/
theorem C7_lock_event_selective (r : Nat) (tasks : TaskMap)
    (pending : List OrderRequest) :
    (∀ e ∈ (handle_lock_event r tasks pending).1, e.1 = r →
      ∀ k ∈ e.2, k.ftype ≠ FulfillmentType.LockAndFulfill) ∧
    (∀ e ∈ tasks, e.1 = r → ∀ k ∈ e.2,
      k.ftype ≠ FulfillmentType.LockAndFulfill →
      ∃ e2 ∈ (handle_lock_event r tasks pending).1, e2.1 = r ∧ k ∈ e2.2) ∧
    (∀ e ∈ tasks, e.1 ≠ r → e ∈ (handle_lock_event r tasks pending).1) ∧
    (∀ o ∈ (handle_lock_event r tasks pending).2.1,
      ¬ (o.request.id = r ∧ o.fulfillment_type = FulfillmentType.LockAndFulfill)) ∧
    (∀ o ∈ pending,
      (o.request.id = r ∧ o.fulfillment_type = FulfillmentType.LockAndFulfill) ∨
      o ∈ (handle_lock_event r tasks pending).2.1) ∧
    (∀ k ∈ (handle_lock_event r tasks pending).2.2,
      k.ftype = FulfillmentType.LockAndFulfill) := by
  simp only [handle_lock_event]
  refine ⟨?_, ?_, ?_, ?_, ?_, ?_⟩
  · intro e he hr k hk
    simp only [List.mem_filter, List.mem_map] at he
    obtain ⟨⟨a, ha, hfa⟩, hkeep⟩ := he
    subst hfa
    by_cases har : a.1 = r
    · rw [if_pos har] at hk
      simp only [List.mem_filter, task_is_lock_and_fulfill, decide_not,
        Bool.not_eq_true', decide_eq_false_iff_not] at hk
      simpa using hk.2
    · rw [if_neg har] at hr
      exact absurd hr har
  · intro e he hr k hk hkf
    refine ⟨(r, e.2.filter (fun k => ¬ task_is_lock_and_fulfill k)), ?_, rfl, ?_⟩
    · simp only [List.mem_filter, List.mem_map]
      constructor
      · exact ⟨e, he, by rw [if_pos hr, hr]⟩
      · have hknz : k ∈ e.2.filter (fun k => ¬ task_is_lock_and_fulfill k) :=
          List.mem_filter.mpr ⟨hk, by simpa [task_is_lock_and_fulfill] using hkf⟩
        simp only [List.isEmpty_eq_true, decide_eq_true_eq]
        intro hcon
        exact absurd hcon.2 (List.ne_nil_of_mem hknz)
    · exact List.mem_filter.mpr ⟨hk, by simpa [task_is_lock_and_fulfill] using hkf⟩
  · intro e he her
    simp only [List.mem_filter, List.mem_map]
    refine ⟨⟨e, he, if_neg her⟩, ?_⟩
    simp only [decide_eq_true_eq]
    exact fun hcon => absurd hcon.1 her
  · intro o ho
    simp only [List.mem_filter, decide_eq_true_eq] at ho
    simpa using ho.2
  · intro o ho
    by_cases hc : o.request.id = r ∧ o.fulfillment_type = FulfillmentType.LockAndFulfill
    · exact Or.inl hc
    · refine Or.inr ?_
      simp only [List.mem_filter, decide_eq_true_eq]
      exact ⟨ho, by simpa using hc⟩
  · intro k hk
    rcases hf : tasks.find? (fun e => e.1 = r) with _ | e
    · rw [hf] at hk
      simp at hk
    · rw [hf] at hk
      simp only [List.mem_filter, task_is_lock_and_fulfill, decide_eq_true_eq] at hk
      exact hk.2

/-- C7 witness: on the demo table, the `FulfillAfterLockExpire` identity of
request 1 survives `handle_lock_event 1` under its key. -/
theorem C7_lock_event_selective_witness :
    ∃ e2 ∈ (handle_lock_event 1 tasksDemo pendingDemo).1, e2.1 = 1 ∧ keyPale1 ∈ e2.2 := by
  obtain ⟨-, h2, -, -, -, -⟩ := C7_lock_event_selective 1 tasksDemo pendingDemo
  exact h2 (1, [keyLaf1, keyPale1]) (by decide) rfl keyPale1 (by decide) (by decide)

/-- C8: when the cancellation token wins the race against `price_order`,
`price_order_and_update_state` returns `false` having emitted nothing
downstream and written nothing to the database. -/
theorem C8_cancellation_no_effects (env : Env) (order : OrderRequest) :
    price_order_and_update_state env order true =
      { returned := false, sent := [], skipped_db := [] } :=
  rfl

/-- The fast path can only emit a `Lock` with target timestamp zero and the
conservative cycle estimate. -/
theorem fast_evaluate_order_shape (env : Env) (order : OrderRequest)
    (out : OrderPricingOutcome) (h : fast_evaluate_order env order = some out) :
    out = OrderPricingOutcome.Lock 5000000000 0 (lock_expiration_of order) := by
  unfold fast_evaluate_order at h
  split_ifs at h
  all_goals simp_all

/-- Every `ok` outcome of the full evaluation is `Skip`, a `Lock` with target
timestamp zero, or a `ProveAfterLockExpire` whose lock-expire timestamp is
`biddingStart + lockTimeout`. -/
theorem price_order_full_shape (env : Env) (order : OrderRequest)
    (r : OrderPricingOutcome) (h : price_order_full env order = Except.ok r) :
    r = OrderPricingOutcome.Skip ∨
    (∃ tc e, r = OrderPricingOutcome.Lock tc 0 e) ∨
    (∃ tc e, r = OrderPricingOutcome.ProveAfterLockExpire tc
      (order.request.offer.biddingStart + order.request.offer.lockTimeout) e) := by
  unfold price_order_full at h
  by_cases h1 : order.fulfillment_type = FulfillmentType.LockAndFulfill ∧
      env.is_request_locked order.request.id = true
  · rw [if_pos h1] at h
    cases h
    exact Or.inl rfl
  rw [if_neg h1] at h
  by_cases h2 : order.fulfillment_type = FulfillmentType.FulfillAfterLockExpire ∧
      env.is_request_fulfilled order.request.id = true
  · rw [if_pos h2] at h
    cases h
    exact Or.inl rfl
  rw [if_neg h2] at h
  by_cases h3 : effective_expiration order ≤ env.now
  · rw [if_pos h3] at h
    cases h
    exact Or.inl rfl
  rw [if_neg h3] at h
  by_cases h4 : effective_expiration order - env.now ≤ env.conf.min_deadline
  · rw [if_pos h4] at h
    cases h
    exact Or.inl rfl
  rw [if_neg h4] at h
  by_cases h5 : denied_by_allow_list env.conf (client_address order.request) = true
  · rw [if_pos h5] at h
    cases h
    exact Or.inl rfl
  rw [if_neg h5] at h
  by_cases h6 : denied_by_deny_list env.conf (client_address order.request) = true
  · rw [if_pos h6] at h
    cases h
    exact Or.inl rfl
  rw [if_neg h6] at h
  by_cases h7 : ¬ env.is_supported_selector order.request.requirements.selector = true
  · rw [if_pos h7] at h
    cases h
    exact Or.inl rfl
  rw [if_neg h7] at h
  by_cases h8 : available_stake_balance env < lockin_stake_of order
  · rw [if_pos h8] at h
    cases h
    exact Or.inl rfl
  rw [if_neg h8] at h
  by_cases h9 : available_gas_balance env <
      env.gas_price * env.estimate_gas_to_fulfill order.request
  · rw [if_pos h9] at h
    cases h
    exact Or.inl rfl
  rw [if_neg h9] at h
  rcases him : env.upload_image order.request with _ | image_id
  · rw [him] at h
    simp only at h
    cases h
  · rw [him] at h
    simp only at h
    rcases hin : env.upload_input order.request with _ | input_id
    · rw [hin] at h
      simp only at h
      cases h
    · rw [hin] at h
      simp only at h
      rcases hpf : env.preflight image_id input_id
          (exec_limit_for env order (effective_expiration order)) with ⟨tc, js⟩ | _ | _ | _
      · rw [hpf] at h
        simp only at h
        by_cases h10 : available_gas_balance2 env <
            env.gas_price2 * env.estimate_gas_to_fulfill order.request
        · rw [if_pos h10] at h
          cases h
          exact Or.inl rfl
        rw [if_neg h10] at h
        by_cases h11 : order.fulfillment_type = FulfillmentType.LockAndFulfill
        · rw [if_pos h11] at h
          cases h
          exact Or.inr (Or.inl ⟨_, _, rfl⟩)
        · rw [if_neg h11] at h
          cases h
          exact Or.inr (Or.inr ⟨_, _, rfl⟩)
      · rw [hpf] at h
        simp only at h
        cases h
        exact Or.inl rfl
      · rw [hpf] at h
        simp only at h
        cases h
      · rw [hpf] at h
        simp only at h
        cases h

/-- Every `ok` outcome of `price_order` has the same shape: the fast path
only emits zero-target `Lock`s and the full path is covered above. -/
theorem price_order_shape (env : Env) (order : OrderRequest)
    (r : OrderPricingOutcome) (h : price_order env order = Except.ok r) :
    r = OrderPricingOutcome.Skip ∨
    (∃ tc e, r = OrderPricingOutcome.Lock tc 0 e) ∨
    (∃ tc e, r = OrderPricingOutcome.ProveAfterLockExpire tc
      (order.request.offer.biddingStart + order.request.offer.lockTimeout) e) := by
  unfold price_order at h
  split at h
  case _ fast heq =>
    injection h with h
    subst h
    rw [fast_evaluate_order_shape env order fast heq]
    exact Or.inr (Or.inl ⟨_, _, rfl⟩)
  case _ heq =>
    exact price_order_full_shape env order r h

/-- C9: every order emitted downstream carries `target_timestamp` zero (every
`Lock` outcome, the fast path included) or `biddingStart + lockTimeout`, the
lock expiration (every `ProveAfterLockExpire` outcome); no other value is
ever emitted. -/
theorem C9_target_timestamp_zero_or_lock_expiry (env : Env)
    (order : OrderRequest) (cancel : Bool) (o : OrderRequest)
    (h : o ∈ (price_order_and_update_state env order cancel).sent) :
    o.target_timestamp = some 0 ∨
    o.target_timestamp = some (order.request.offer.biddingStart +
      order.request.offer.lockTimeout) := by
  unfold price_order_and_update_state at h
  split at h
  · simp at h
  · split at h
    case _ tc tts es heq =>
      rcases price_order_shape env order _ heq with h1 | ⟨tc2, e2, h2⟩ | ⟨tc2, e2, h2⟩
      · exact absurd h1 (by simp)
      · simp only [List.mem_singleton] at h
        subst h
        injection h2 with h2a h2b h2c
        subst h2b
        exact Or.inl rfl
      · exact absurd h2 (by simp)
    case _ tc lets es heq =>
      rcases price_order_shape env order _ heq with h1 | ⟨tc2, e2, h2⟩ | ⟨tc2, e2, h2⟩
      · exact absurd h1 (by simp)
      · exact absurd h2 (by simp)
      · simp only [List.mem_singleton] at h
        subst h
        injection h2 with h2a h2b h2c
        subst h2b
        exact Or.inr rfl
    case _ heq => simp at h
    case _ heq => simp at h

/-- C9 witness: in the quiescent environment the base order is fast-locked
and the emitted order indeed carries target timestamp zero. -/
theorem C9_target_timestamp_witness :
    sentFastLock.target_timestamp = some 0 ∨
    sentFastLock.target_timestamp = some (orderBase.request.offer.biddingStart +
      orderBase.request.offer.lockTimeout) :=
  C9_target_timestamp_zero_or_lock_expiry envBase orderBase false sentFastLock
    (by decide)

/-- C10: `fetch_order` returns a sole order unconditionally — even when the
supplied digest does not match it; with two or more orders the digest filter
selects the first match; and with two or more orders but no digest it
fails. -/
theorem C10_fetch_order_single_unconditional (o1 o2 : StreamOrder)
    (os : List StreamOrder) (d : Nat)
    (hmis : o1.request_digest ≠ d) (hmatch : o2.request_digest = d) :
    fetch_order [o1] (some d) = Except.ok o1 ∧
    fetch_order (o1 :: o2 :: os) none =
      Except.error "Multiple orders found, please provide a request digest" ∧
    fetch_order (o1 :: o2 :: os) (some d) = Except.ok o2 := by
  refine ⟨rfl, rfl, ?_⟩
  simp [fetch_order, List.find?, hmis, hmatch]

/-- C10 witness: the single order A is returned against the mismatching
digest 200; with A and B present the digest 200 selects B and the absence of
a digest is an error. -/
theorem C10_fetch_order_witness :
    fetch_order [streamOrderA] (some 200) = Except.ok streamOrderA ∧
    fetch_order [streamOrderA, streamOrderB] none =
      Except.error "Multiple orders found, please provide a request digest" ∧
    fetch_order [streamOrderA, streamOrderB] (some 200) = Except.ok streamOrderB :=
  C10_fetch_order_single_unconditional streamOrderA streamOrderB [] 200
    (by decide) rfl

end Boundless
